import Mathlib

/-!
# NBU Open Data Dashboard — verification of the core pipeline

A shallow embedding of the core of `src/app.py`:

* `fetch_data` — HTTP fetch with a double JSON parse and a 900-second
  memoization cache (`@st.cache_data(ttl=900)`);
* `pd.json_normalize` — normalization of a JSON payload into a flat table;
* `detect_date_column` — name-based date-column detection;
* `render_dataset` — chart selection (line / histogram / note / none),
  in-place date coercion and descriptive statistics;
* the two per-dataset loops of the script body.

Machine floats of the source carry exact JSON numbers here, so numbers are
modelled as rationals; timestamps as integers.
-/

set_option autoImplicit false

namespace NBU

/-- A JSON value, as produced by Python's `json.loads`: `null`, booleans,
numbers (modelled exactly as rationals), strings, arrays and objects
(ordered key/value lists, as Python dicts preserve insertion order). -/
inductive Json where
  | null : Json
  | bool (b : Bool) : Json
  | num (q : ℚ) : Json
  | str (s : String) : Json
  | arr (xs : List Json) : Json
  | obj (kvs : List (String × Json)) : Json
deriving Repr

/-- A cell of a pandas `DataFrame` obtained from JSON input: missing values
and `None`/`NaN`/`NaT` are all `null`; scalars keep their kind; a datetime
cell (`pd.to_datetime` output) is `ts`; a non-scalar JSON value kept as-is
in an object column is `raw`. -/
inductive Cell where
  | null : Cell
  | bool (b : Bool) : Cell
  | num (q : ℚ) : Cell
  | str (s : String) : Cell
  | ts (t : ℤ) : Cell
  | raw (j : Json) : Cell
deriving Repr

/-- Python `dict.__setitem__`: replace in place when the key is present,
append otherwise. -/
def dictSet (d : List (String × Json)) (k : String) (v : Json) :
    List (String × Json) :=
  if d.any (fun kv => kv.1 == k) then
    d.map (fun kv => if kv.1 == k then (k, v) else kv)
  else
    d ++ [(k, v)]

/-- Python `dict.pop`: remove the key. -/
def dictPop (d : List (String × Json)) (k : String) : List (String × Json) :=
  d.filter (fun kv => kv.1 != k)

/-- Python `dict.update`: set every entry of `upd` in turn. -/
def dictUpdate (d upd : List (String × Json)) : List (String × Json) :=
  upd.foldl (fun a kv => dictSet a kv.1 kv.2) d

/-- `Json.obj` entries when the value is an object. -/
def Json.objEntries? : Json → Option (List (String × Json))
  | .obj kvs => some kvs
  | _ => none

/-- The entries of every element of a list of objects; `none` as soon as
one element is not an object. -/
def allRecords? : List Json → Option (List (List (String × Json)))
  | [] => some []
  | x :: rest =>
      match x.objEntries? with
      | some kvs => (allRecords? rest).map (fun rs => kvs :: rs)
      | none => none

/-- The recursive worker of pandas' `nested_to_record` for one record
(`pandas/io/json/_normalize.py`): walk the pending entries in order with
the record itself as the initial accumulator.  At the top level (`top =
true`, python `level == 0`) a non-dict value stays in place under its
original key; deeper, every key is popped and re-inserted under the dotted
path `px ++ "." ++ k`.  A dict value is popped and the flattened entries
are merged in with dict-update semantics. -/
def nestedToRecord (top : Bool) (px : String)
    (pending acc : List (String × Json)) : List (String × Json) :=
  match pending with
  | [] => acc
  | (k, v) :: rest =>
    let nk := if top then k else px ++ "." ++ k
    match v with
    | .obj kvs =>
        nestedToRecord top px rest
          (dictUpdate (dictPop acc k) (nestedToRecord false nk kvs kvs))
    | _ =>
        if top then nestedToRecord top px rest acc
        else nestedToRecord top px rest (dictSet (dictPop acc k) nk v)
termination_by sizeOf pending
decreasing_by
  all_goals simp_arith [*]

/-- Flatten one JSON record the way `pd.json_normalize` flattens each
element of a record list (nested dicts become dotted-path keys, other
values are untouched). -/
def flattenRecord (kvs : List (String × Json)) : List (String × Json) :=
  nestedToRecord true "" kvs kvs

/-- Keys of a flattened record. -/
def recordKeys (kvs : List (String × Json)) : List String :=
  (flattenRecord kvs).map Prod.fst

/-- Union of key lists keeping the order of first appearance, as pandas
computes the column index from a list of records. -/
def unionFirst (l : List String) : List String :=
  l.foldl (fun acc c => if acc.contains c then acc else acc ++ [c]) []

/-- A pandas `DataFrame` restricted to what the source uses: named columns
over rows of cells.  Well-formed frames have every row of the same length
as `cols`. -/
structure DataFrame where
  cols : List String
  rows : List (List Cell)
deriving Repr

/-- Every row has one cell per column. -/
def DataFrame.wf (df : DataFrame) : Prop :=
  ∀ r ∈ df.rows, r.length = df.cols.length

/-- The cell of row `i` under the column named `c` (first occurrence of
the name), `null` outside the frame. -/
def DataFrame.cell (df : DataFrame) (i : ℕ) (c : String) : Cell :=
  match df.cols.findIdx? (fun c' => c' == c) with
  | some j => (df.rows.getD i []).getD j .null
  | none => .null

instance (df : DataFrame) : Decidable df.wf := by
  unfold DataFrame.wf; infer_instance

/-- Scalar conversion of a flattened JSON value into a table cell: scalars
keep their kind, a missing value would be `null`, arrays (and any residual
object) are kept as raw structure in an object column. -/
def cellOfJson : Json → Cell
  | .null => .null
  | .bool b => .bool b
  | .num q => .num q
  | .str s => .str s
  | j => .raw j

/-- Build the `DataFrame` for a list of records, as `pd.json_normalize`
does for a record list: flatten each record, take the union of the keys in
first-appearance order as columns, and fill each row by key lookup with
`null` for a key the record does not carry. -/
def normalizeRecords (recs : List (List (String × Json))) : DataFrame :=
  let flat := recs.map flattenRecord
  let cols := unionFirst (flat.map (fun r => r.map Prod.fst)).flatten
  { cols := cols
    rows := flat.map (fun r =>
      cols.map (fun c => ((r.lookup c).map cellOfJson).getD .null)) }

/-- `pd.json_normalize` on the payload shapes the source can produce:
an empty list short-circuits to an empty frame; a dict is wrapped into a
one-record list; a list must consist of dicts (pandas fails with an
attribute error otherwise); any other payload raises
`NotImplementedError`.  Failure is `none`. -/
def json_normalize (j : Json) : Option DataFrame :=
  match j with
  | .arr [] => some { cols := [], rows := [] }
  | .arr xs => (allRecords? xs).map normalizeRecords
  | .obj kvs => some (normalizeRecords [kvs])
  | _ => none

/-- Does the second list start with the first one? -/
def leadsWith : List Char → List Char → Bool
  | [], _ => true
  | _ :: _, [] => false
  | p :: ps, c :: cs => p == c && leadsWith ps cs

/-- Python's `pat in s`: some tail of `s` starts with `pat`. -/
def hasSub : List Char → List Char → Bool
  | s, pat =>
    leadsWith pat s ||
      match s with
      | [] => false
      | _ :: t => hasSub t pat

/-- Python's `s.endswith(pat)`. -/
def hasSuffix (s pat : List Char) : Bool :=
  leadsWith pat.reverse s.reverse

/-- Python's `s.lower()`, character by character (ASCII case mapping —
the only case that can affect the ASCII search patterns below). -/
def lowerChars (s : String) : List Char :=
  s.toList.map Char.toLower

/-- `detect_date_column` (src/app.py:79-83) column-name test:
`"date" in col.lower() or col.lower().endswith("dt")`. -/
def matchesDate (c : String) : Bool :=
  hasSub (lowerChars c) "date".toList || hasSuffix (lowerChars c) "dt".toList

def detect_date_column (df : DataFrame) : Option String :=
  df.cols.find? matchesDate

/-- The cells of a named column (first occurrence of the name), padding a
short row with `null` as pandas never needs to. -/
def DataFrame.col (df : DataFrame) (c : String) : List Cell :=
  match df.cols.findIdx? (fun c' => c' == c) with
  | some i => df.rows.map (fun r => r.getD i .null)
  | none => []

def Cell.isNum : Cell → Bool
  | .num _ => true
  | _ => false

def Cell.isNull : Cell → Bool
  | .null => true
  | _ => false

def Cell.toNum? : Cell → Option ℚ
  | .num q => some q
  | _ => none

/-- pandas dtype inference on a column built from JSON scalars: the column
is a numeric dtype (`int64`/`float64`) exactly when it holds at least one
number and nothing but numbers and nulls.  A string, boolean or raw
structure anywhere makes the dtype `object`/`bool`; an all-null column
stays `object`. -/
def isNumericCol (vs : List Cell) : Bool :=
  vs.any Cell.isNum && vs.all (fun v => v.isNum || v.isNull)

/-- `df.select_dtypes(include="number").columns.tolist()`
(src/app.py:91): the numeric-dtype columns in column order. -/
def numericCols (df : DataFrame) : List String :=
  df.cols.filter (fun c => isNumericCol (df.col c))

/-- `pd.to_datetime(·, errors="coerce")` on one cell, parametrised by the
scalar parser `p` (the library's datetime parsing): a null stays null
(`NaT`), any other cell becomes a timestamp when `p` parses it and `NaT`
(null) otherwise. -/
def to_datetime (p : Cell → Option ℤ) (c : Cell) : Cell :=
  match c with
  | .null => .null
  | v => match p v with
         | some t => .ts t
         | none => .null

/-- `df[c] = f(df[c])`: rewrite every cell that sits under a column named
`c`, in place, leaving all other columns untouched. -/
def DataFrame.mapCol (df : DataFrame) (c : String) (f : Cell → Cell) :
    DataFrame :=
  { cols := df.cols
    rows := df.rows.map (fun r =>
      (df.cols.zip r).map (fun nv => if nv.1 == c then f nv.2 else nv.2)) }

/-- Does row `r` hold a non-null cell under column `c` of `cols`? -/
def rowHasValue (cols : List String) (r : List Cell) (c : String) : Bool :=
  match cols.findIdx? (fun c' => c' == c) with
  | some i => !(r.getD i .null).isNull
  | none => true

/-- `df.dropna(subset=sub)`: keep exactly the rows whose cell under every
column of `sub` is non-null. -/
def dropna (df : DataFrame) (sub : List String) : DataFrame :=
  { cols := df.cols
    rows := df.rows.filter (fun r => sub.all (rowHasValue df.cols r)) }

/-- `describe()` count for one column: the number of non-null cells. -/
def describeCount (df : DataFrame) (c : String) : ℕ :=
  (df.col c).countP (fun v => !v.isNull)

/-- `describe()` mean for one column: the mean of the numeric cells,
absent when there are none. -/
def describeMean (df : DataFrame) (c : String) : Option ℚ :=
  let ns := (df.col c).filterMap Cell.toNum?
  if ns.length = 0 then none
  else some (ns.sum / (ns.length : ℚ))

/-- What `render_dataset` hands to the chart layer: a time-series line
chart (x, y, data after dropping rows), a binned histogram of one column
with counts (data after dropping rows), the informational note of the
no-numeric-field branch, or no chart at all. -/
inductive ChartSpec where
  | line (x y : String) (data : DataFrame) : ChartSpec
  | histogram (c : String) (data : DataFrame) : ChartSpec
  | note : ChartSpec
  | noChart : ChartSpec
deriving Repr

/-- The core of `render_dataset` (src/app.py:86-127), parametrised by the
datetime scalar parser `p` and the widget selection `sel` (`st.selectbox`
returns the user's pick among the options, the first option by default).
Returns the chart decision together with the final state of the frame —
the source mutates `df` in place on line 94, so the frame that the later
statistics and preview read is part of the result. -/
def render_dataset (p : Cell → Option ℤ) (sel : List String → String)
    (df : DataFrame) : ChartSpec × DataFrame :=
  let date_col := detect_date_column df
  let numeric_cols := numericCols df
  match date_col with
  | some d =>
      let df2 := df.mapCol d (to_datetime p)
      if numeric_cols.isEmpty then (.note, df2)
      else
        let metric := sel numeric_cols
        (.line d metric (dropna df2 [d, metric]), df2)
  | none =>
      if numeric_cols.isEmpty then (.noChart, df)
      else
        let metric := sel numeric_cols
        (.histogram metric (dropna df [metric]), df)

/-! ## Fetcher: double parse and cache -/

/-- The parse step of `fetch_data` (src/app.py:70-74): `response.json()`
parses the body text; when that raises a JSON decode error the `except`
branch parses the very same text with `json.loads` again.  Both attempts
run one and the same parser on one and the same string, so the model
applies `parse` to `text` twice.  A `none` result is the uncaught decode
error of the second attempt. -/
def fetch_payload (parse : String → Option Json) (text : String) :
    Option Json :=
  match parse text with
  | some payload => some payload
  | none => parse text

/-- One entry of the `st.cache_data` store: the cached return value of
`fetch_data` for one URL (frame and formatted fetch time) and the moment
it was stored. -/
structure CacheEntry where
  storedAt : ℕ
  df : DataFrame
  fetchedAt : ℕ
deriving Repr

/-- The per-URL memoization store of `@st.cache_data(ttl=900)`. -/
abbrev Cache := List (String × CacheEntry)

/-- Store an entry under a URL, replacing any previous entry for it. -/
def cacheSet (cache : Cache) (url : String) (e : CacheEntry) : Cache :=
  if cache.any (fun kv => kv.1 == url) then
    cache.map (fun kv => if kv.1 == url then (url, e) else kv)
  else cache ++ [(url, e)]

/-- `fetch_data` under `@st.cache_data(ttl=900)` (src/app.py:66-76),
with the network/parse/normalize body abstracted into the oracle `net`
(what the body would produce for a URL at a moment) and time in seconds.
A cached entry younger than 900 seconds is returned as-is with no network
call; otherwise the body runs once, its result replaces the entry, and
the call counter reports exactly one network call. -/
def fetch_data (net : String → ℕ → DataFrame) (cache : Cache)
    (url : String) (now : ℕ) : (DataFrame × ℕ) × Cache × ℕ :=
  match cache.lookup url with
  | some e =>
      if now < e.storedAt + 900 then ((e.df, e.fetchedAt), cache, 0)
      else
        let d := net url now
        ((d, now), cacheSet cache url ⟨now, d, now⟩, 1)
  | none =>
      let d := net url now
      ((d, now), cacheSet cache url ⟨now, d, now⟩, 1)

/-! ## The script body: per-dataset loops

The summary loop (src/app.py:161-177) wraps only `fetch_data` in
`try/except`, shows `st.error` naming the dataset on failure and
`continue`s.  The analytics loop (src/app.py:184-190) wraps only
`fetch_data` in `try/except` with a bare `continue` and no message; the
`render_dataset` call sits outside the `try`, so an exception it raises
(e.g. the duplicate-widget-key error Streamlit raises when two selected
datasets share a display name, or a chart-size error) propagates and stops
the script, leaving the remaining datasets unprocessed. -/

/-- One row of the summary table. -/
structure SummaryRow where
  name : String
  url : String
  records : ℕ
  fields : ℕ
deriving Repr

/-- The summary loop: `fetch` abstracts `fetch_data` for this run (the
cache makes it one value per URL within a run).  Returns the summary rows
and the `st.error` messages' dataset names, in order. -/
def summaryLoop (fetch : String → Except String DataFrame)
    (sel : List (String × String)) : List SummaryRow × List String :=
  match sel with
  | [] => ([], [])
  | (n, u) :: rest =>
      let (rows, errs) := summaryLoop fetch rest
      match fetch u with
      | .ok df => (⟨n, u, df.rows.length, df.cols.length⟩ :: rows, errs)
      | .error _ => (rows, n :: errs)

/-- The analytics loop: a fetch failure is skipped silently; a failure of
`render` (outside the `try`) aborts the loop with the failing dataset's
name and the names rendered so far — the rest of `sel` is never reached. -/
def analyticsLoop (fetch : String → Except String DataFrame)
    (render : String → DataFrame → Except String Unit)
    (sel : List (String × String)) : Except (String × List String) (List String) :=
  match sel with
  | [] => .ok []
  | (n, u) :: rest =>
      match fetch u with
      | .error _ => analyticsLoop fetch render rest
      | .ok df =>
          match render n df with
          | .error _ => .error (n, [])
          | .ok _ =>
              match analyticsLoop fetch render rest with
              | .ok done => .ok (n :: done)
              | .error (bad, done) => .error (bad, n :: done)

/-! ## A model of `json.loads`

A fuel-based recursive-descent parser for the JSON fragment the theorems
exercise (null, booleans, integer and decimal-fraction numbers, strings
with the basic escapes, arrays, objects); exponents and `\u` escapes are
outside the fragment and make the parser fail.  Duplicate object keys
follow `json.loads`: the last value wins. -/

/-- Combine a leading object entry with the parse of the remaining
entries, with `json.loads` duplicate-key semantics: the first occurrence
fixes the position, the last occurrence fixes the value. -/
def objInsert (k : String) (v : Json) (tail : List (String × Json)) :
    List (String × Json) :=
  match tail.lookup k with
  | some v' => (k, v') :: tail.filter (fun kv => kv.1 != k)
  | none => (k, v) :: tail

def isJsonWs (c : Char) : Bool :=
  c == ' ' || c == '\n' || c == '\t' || c == '\r'

def skipWs (s : List Char) : List Char :=
  s.dropWhile isJsonWs

def digitVal? (c : Char) : Option ℕ :=
  if c.isDigit then some (c.toNat - 48) else none

/-- Read a run of digits as a natural number with its length. -/
def readDigits (s : List Char) (acc : ℕ) (len : ℕ) :
    ℕ × ℕ × List Char :=
  match s with
  | c :: rest =>
      match digitVal? c with
      | some d => readDigits rest (acc * 10 + d) (len + 1)
      | none => (acc, len, s)
  | [] => (acc, len, s)

/-- Parse the characters of a string literal after the opening quote. -/
def readString (fuel : ℕ) (s : List Char) : Option (String × List Char) :=
  match fuel with
  | 0 => none
  | fuel + 1 =>
    match s with
    | [] => none
    | '"' :: rest => some ("", rest)
    | '\\' :: e :: rest =>
        let esc? : Option Char :=
          if e == '"' then some '"'
          else if e == '\\' then some '\\'
          else if e == '/' then some '/'
          else if e == 'n' then some '\n'
          else if e == 't' then some '\t'
          else if e == 'r' then some '\r'
          else none
        match esc? with
        | some c => (readString fuel rest).map (fun p => (c.toString ++ p.1, p.2))
        | none => none
    | '\\' :: [] => none
    | c :: rest => (readString fuel rest).map (fun p => (c.toString ++ p.1, p.2))

/-- Parse a number at the head of `s` (sign, integer part, optional
decimal fraction; exponents unsupported). -/
def readNumber (s : List Char) : Option (ℚ × List Char) :=
  let (neg, s₁) := match s with
                   | '-' :: rest => (true, rest)
                   | _ => (false, s)
  let (ip, ilen, s₂) := readDigits s₁ 0 0
  if ilen = 0 then none
  else
    let (q, rest) :=
      match s₂ with
      | '.' :: s₃ =>
          let (fp, flen, s₄) := readDigits s₃ 0 0
          (((ip : ℚ) + (fp : ℚ) / ((10 : ℚ) ^ flen)), s₄)
      | _ => ((ip : ℚ), s₂)
    match rest with
    | 'e' :: _ => none
    | 'E' :: _ => none
    | _ => some (if neg then -q else q, rest)

mutual

def parseVal (fuel : ℕ) (s : List Char) : Option (Json × List Char) :=
  match fuel with
  | 0 => none
  | fuel + 1 =>
    match skipWs s with
    | 'n' :: 'u' :: 'l' :: 'l' :: rest => some (.null, rest)
    | 't' :: 'r' :: 'u' :: 'e' :: rest => some (.bool true, rest)
    | 'f' :: 'a' :: 'l' :: 's' :: 'e' :: rest => some (.bool false, rest)
    | '"' :: rest => (readString rest.length.succ rest).map (fun p => (.str p.1, p.2))
    | '[' :: rest =>
        (match skipWs rest with
         | ']' :: rest' => some (.arr [], rest')
         | _ => (parseArrTail fuel rest).map (fun p => (.arr p.1, p.2)))
    | '{' :: rest =>
        (match skipWs rest with
         | '}' :: rest' => some (.obj [], rest')
         | _ => (parseObjTail fuel rest).map (fun p => (.obj p.1, p.2)))
    | s' => (readNumber s').map (fun p => (.num p.1, p.2))

def parseArrTail (fuel : ℕ) (s : List Char) : Option (List Json × List Char) :=
  match fuel with
  | 0 => none
  | fuel + 1 =>
    match parseVal fuel s with
    | none => none
    | some (v, rest) =>
        match skipWs rest with
        | ',' :: rest' =>
            (parseArrTail fuel rest').map (fun p => (v :: p.1, p.2))
        | ']' :: rest' => some ([v], rest')
        | _ => none

def parseObjTail (fuel : ℕ) (s : List Char) : Option (List (String × Json) × List Char) :=
  match fuel with
  | 0 => none
  | fuel + 1 =>
    match skipWs s with
    | '"' :: rest =>
        match readString rest.length.succ rest with
        | none => none
        | some (k, rest₁) =>
            match skipWs rest₁ with
            | ':' :: rest₂ =>
                (match parseVal fuel rest₂ with
                 | none => none
                 | some (v, rest₃) =>
                     match skipWs rest₃ with
                     | ',' :: rest₄ =>
                         (parseObjTail fuel rest₄).map
                           (fun p => (objInsert k v p.1, p.2))
                     | '}' :: rest₄ => some ([(k, v)], rest₄)
                     | _ => none)
            | _ => none
    | _ => none

end

/-- `json.loads` on the supported fragment: parse one value and require
only whitespace after it. -/
def json_loads (s : String) : Option Json :=
  match parseVal (s.length + 2) s.toList with
  | some (v, rest) => if (skipWs rest).isEmpty then some v else none
  | none => none

/-! ## General lemmas -/

theorem mem_foldl_unionFirst (l : List String) (acc : List String)
    (a : String) :
    a ∈ l.foldl (fun acc c => if acc.contains c then acc else acc ++ [c]) acc ↔
      a ∈ acc ∨ a ∈ l := by
  induction l generalizing acc with
  | nil => simp
  | cons c t ih =>
      simp only [List.foldl_cons, ih, List.mem_cons]
      by_cases hc : acc.contains c
      · simp only [hc, if_pos]
        have : c ∈ acc := by simpa using hc
        constructor
        · rintro (h | h)
          · exact Or.inl h
          · exact Or.inr (Or.inr h)
        · rintro (h | h | h)
          · exact Or.inl h
          · exact Or.inl (h ▸ this)
          · exact Or.inr h
      · simp only [hc, if_neg, Bool.false_eq_true, not_false_iff,
          List.mem_append, List.mem_singleton]
        tauto

theorem mem_unionFirst (l : List String) (a : String) :
    a ∈ unionFirst l ↔ a ∈ l := by
  rw [unionFirst]
  simpa using mem_foldl_unionFirst l [] a

/-- `List.find?` characterised by a split of the list at the hit. -/
theorem find?_eq_some_split {α : Type} (p : α → Bool) (l : List α) (a : α)
    (h : l.find? p = some a) :
    p a = true ∧ ∃ pre post, l = pre ++ a :: post ∧ ∀ c ∈ pre, p c = false := by
  induction l with
  | nil => simp at h
  | cons x t ih =>
      by_cases hx : p x
      · rw [List.find?_cons_of_pos _ hx] at h
        cases h
        exact ⟨hx, [], t, rfl, by simp⟩
      · rw [List.find?_cons_of_neg _ (by simpa using hx)] at h
        obtain ⟨hp, pre, post, hsplit, hpre⟩ := ih h
        refine ⟨hp, x :: pre, post, by simp [hsplit], ?_⟩
        intro c hc
        rcases List.mem_cons.mp hc with rfl | hc
        · simpa using hx
        · exact hpre c hc

/-! ## Claims -/

/-- C3: date-axis detection selects exactly the first column (in column
order) whose lowercased name contains `"date"` or ends with `"dt"`; later
matching columns are ignored; when no column matches, no date axis is
selected; for columns `["start_date","end_date","value"]` the selected
axis is `"start_date"`; and column content plays no part — the decision
depends on the column names alone. -/
theorem claim_c3_date_axis_selection :
    (∀ (df : DataFrame) (d : String), detect_date_column df = some d →
      matchesDate d = true ∧
      ∃ pre post, df.cols = pre ++ d :: post ∧
        ∀ c ∈ pre, matchesDate c = false) ∧
    (∀ df : DataFrame,
      detect_date_column df = none ↔ ∀ c ∈ df.cols, matchesDate c = false) ∧
    (∀ df df' : DataFrame, df.cols = df'.cols →
      detect_date_column df = detect_date_column df') ∧
    detect_date_column ⟨["start_date", "end_date", "value"], []⟩ =
      some "start_date" := by
  refine ⟨?_, ?_, ?_, ?_⟩
  · intro df d h
    exact find?_eq_some_split matchesDate df.cols d h
  · intro df
    simp [detect_date_column, List.find?_eq_none]
  · intro df df' h
    simp [detect_date_column, h]
  · rfl

/-- Witness for C3 at the spec's own example: `start_date` matches and is
the head of a split whose prefix holds no matching name. -/
theorem claim_c3_date_axis_selection_witness :
    matchesDate "start_date" = true ∧
    ∃ pre post,
      (DataFrame.cols ⟨["start_date", "end_date", "value"], []⟩) =
        pre ++ "start_date" :: post ∧
      ∀ c ∈ pre, matchesDate c = false :=
  claim_c3_date_axis_selection.1 ⟨["start_date", "end_date", "value"], []⟩
    "start_date" rfl

/-- C9, counterexample: normalization of the empty JSON object does not
produce a zero-row table — `pd.json_normalize` wraps a dict into a
one-record list, so `{}` becomes a table with one (empty) row. -/
theorem claim_c9_counterexample :
    json_normalize (Json.obj []) =
      some { cols := [], rows := [[]] } ∧
    (json_normalize (Json.obj [])).map (fun df => df.rows.length) = some 1 ∧
    (json_normalize (Json.obj [])).map (fun df => df.rows.length) ≠ some 0 := by
  refine ⟨?_, ?_, ?_⟩ <;>
    simp [json_normalize, normalizeRecords, flattenRecord, nestedToRecord,
      unionFirst]

/-- C9, amended: normalization of the empty JSON array `[]` yields a
zero-row, zero-column table without error; normalization of the empty
JSON object `{}` also succeeds, but yields a one-row, zero-column
table. -/
theorem claim_c9_amended :
    json_normalize (Json.arr []) = some { cols := [], rows := [] } ∧
    json_normalize (Json.obj []) = some { cols := [], rows := [[]] } ∧
    (json_normalize (Json.arr [])).isSome = true ∧
    (json_normalize (Json.obj [])).isSome = true := by
  refine ⟨rfl, ?_, rfl, ?_⟩ <;>
    simp [json_normalize, normalizeRecords, flattenRecord, nestedToRecord,
      unionFirst]

theorem allRecords?_length (xs : List Json)
    (recs : List (List (String × Json))) (h : allRecords? xs = some recs) :
    recs.length = xs.length := by
  induction xs generalizing recs with
  | nil => simp [allRecords?] at h; simp [← h]
  | cons x t ih =>
      rw [allRecords?] at h
      cases hx : x.objEntries? with
      | none => simp [hx] at h
      | some kvs =>
          rw [hx] at h
          cases ht : allRecords? t with
          | none => simp [ht] at h
          | some rs =>
              simp [ht] at h
              simp [← h, ih rs ht]

theorem json_normalize_records (xs : List Json)
    (recs : List (List (String × Json))) (h : allRecords? xs = some recs) :
    json_normalize (Json.arr xs) = some (normalizeRecords recs) := by
  cases xs with
  | nil =>
      simp [allRecords?] at h
      subst h
      simp [json_normalize, normalizeRecords, unionFirst]
  | cons x t => simp [json_normalize, h]

/-- C1, counterexample: for an array holding an object with a nested
object value, the column set is the set of flattened dotted-path keys,
not the union of the keys observed in the objects — `[{"a": {"b": 1}}]`
produces the single column `a.b`, and no column `a`. -/
theorem claim_c1_counterexample :
    json_normalize (Json.arr [Json.obj [("a", Json.obj [("b", Json.num 1)])]]) =
      some { cols := ["a.b"], rows := [[Cell.num 1]] } ∧
    "a" ∉ (DataFrame.cols { cols := ["a.b"], rows := [[Cell.num 1]] }) := by
  constructor
  · simp [json_normalize, allRecords?, Json.objEntries?, normalizeRecords,
      flattenRecord, nestedToRecord, unionFirst, dictUpdate, dictPop,
      dictSet, cellOfJson]
  · simp

/-- C1, amended: for a JSON array of objects, normalization yields a
table with one row per array element; the column set is the union of the
*flattened* (dotted-path) keys of the objects — the plain key union only
when no object nests a further object; and a row's cell under a column
whose key the row's object does not carry is null. -/
theorem claim_c1_amended (xs : List Json)
    (recs : List (List (String × Json))) (h : allRecords? xs = some recs) :
    ∃ df, json_normalize (Json.arr xs) = some df ∧
      df.rows.length = xs.length ∧
      (∀ c, c ∈ df.cols ↔ ∃ r ∈ recs, c ∈ recordKeys r) ∧
      (∀ (i : ℕ) (c : String), c ∈ df.cols → c ∉ recordKeys (recs.getD i []) →
        df.cell i c = Cell.null) := by
  refine ⟨normalizeRecords recs, json_normalize_records xs recs h, ?_, ?_, ?_⟩
  · simp [normalizeRecords, allRecords?_length xs recs h]
  · intro c
    simp only [normalizeRecords, mem_unionFirst, List.mem_flatten,
      List.mem_map, recordKeys, Function.comp]
    aesop
  · intro i c hc habs
    rw [DataFrame.cell]
    cases hfind : (normalizeRecords recs).cols.findIdx? (fun c' => c' == c) with
    | none => simp
    | some j =>
        simp only []
        obtain ⟨hj, hpj, -⟩ := List.findIdx?_eq_some_iff_getElem.mp hfind
        have hcolj : (normalizeRecords recs).cols[j] = c := by
          simpa using hpj
        have hlk : (flattenRecord (recs.getD i [])).lookup c = none := by
          rw [List.lookup_eq_none_iff]
          simp only [recordKeys, List.mem_map] at habs
          intro q hq
          by_contra hne
          simp only [bne_iff_ne, ne_eq, not_not] at hne
          exact habs ⟨q, hq, hne.symm⟩
        by_cases hi : i < (normalizeRecords recs).rows.length
        · have hrow : (normalizeRecords recs).rows.getD i [] =
              (normalizeRecords recs).cols.map (fun c' =>
                ((( flattenRecord (recs.getD i [])).lookup c').map
                  cellOfJson).getD .null) := by
            simp only [normalizeRecords] at hi ⊢
            rw [List.getD_eq_getElem?_getD]
            rw [List.getElem?_map]
            rw [List.getElem?_map]
            simp only [List.length_map] at hi
            rw [List.getElem?_eq_getElem hi]
            simp [List.getD_eq_getElem?_getD, List.getElem?_eq_getElem hi]
          rw [hrow, List.getD_eq_getElem?_getD, List.getElem?_map,
            List.getElem?_eq_getElem hj]
          rw [hcolj]
          simp only [List.getD_eq_getElem?_getD] at hlk
          simp [hlk]
        · have hempty : (normalizeRecords recs).rows[i]? = none :=
            List.getElem?_eq_none (Nat.le_of_not_lt hi)
          simp [hempty]

/-- Witness for the amended C1 at `[{"a": 1}, {"b": 2}]`. -/
theorem claim_c1_amended_witness :
    ∃ df, json_normalize
        (Json.arr [Json.obj [("a", Json.num 1)], Json.obj [("b", Json.num 2)]]) =
        some df ∧
      df.rows.length =
        [Json.obj [("a", Json.num 1)], Json.obj [("b", Json.num 2)]].length ∧
      (∀ c, c ∈ df.cols ↔
        ∃ r ∈ [[("a", Json.num 1)], [("b", Json.num 2)]], c ∈ recordKeys r) ∧
      (∀ (i : ℕ) (c : String), c ∈ df.cols →
        c ∉ recordKeys ([[("a", Json.num 1)], [("b", Json.num 2)]].getD i []) →
        df.cell i c = Cell.null) :=
  claim_c1_amended [Json.obj [("a", Json.num 1)], Json.obj [("b", Json.num 2)]]
    [[("a", Json.num 1)], [("b", Json.num 2)]] rfl

theorem countP_nonnull_of_num_or_null (vs : List Cell)
    (hall : ∀ v ∈ vs, v.isNum = true ∨ v.isNull = true) :
    vs.countP (fun v => !v.isNull) = (vs.filterMap Cell.toNum?).length := by
  induction vs with
  | nil => rfl
  | cons v t ih =>
      have hv := hall v (by simp)
      have ht : ∀ v ∈ t, v.isNum = true ∨ v.isNull = true := by
        intro w hw; exact hall w (by simp [hw])
      cases v <;> simp_all [List.countP_cons, Cell.isNum, Cell.isNull,
        Cell.toNum?, List.filterMap_cons]

/-- C4, counterexample: the column `[1, "n/a", 3]` is *not* classified
Numeric — `select_dtypes(include="number")` keeps only columns whose
dtype is numeric, and a column holding a string has dtype `object` — so
no summary (in particular not count=2/mean=2) is reported for it. -/
theorem claim_c4_counterexample :
    json_normalize (Json.arr [Json.obj [("v", Json.num 1)],
        Json.obj [("v", Json.str "n/a")], Json.obj [("v", Json.num 3)]]) =
      some { cols := ["v"],
             rows := [[Cell.num 1], [Cell.str "n/a"], [Cell.num 3]] } ∧
    numericCols
      (DataFrame.mk ["v"] [[Cell.num 1], [Cell.str "n/a"], [Cell.num 3]]) = [] ∧
    "v" ∉ numericCols
      (DataFrame.mk ["v"] [[Cell.num 1], [Cell.str "n/a"], [Cell.num 3]]) := by
  refine ⟨?_, by decide, by decide⟩
  simp [json_normalize, allRecords?, Json.objEntries?, normalizeRecords,
    flattenRecord, nestedToRecord, unionFirst, cellOfJson]

/-- C4, amended: a column is classified Numeric exactly when it holds at
least one number and nothing but numbers and nulls (no best-effort
coercion of mixed columns); for a Numeric column the statistics run over
the numeric cells only — count is the number of numeric cells and the
mean their average, so nulls are excluded rather than coerced to zero
(e.g. `[1, null, 3]` gives count=2, mean=2), while the mixed column
`[1, "n/a", 3]` is not Numeric and gets no summary at all. -/
theorem claim_c4_amended :
    (∀ (df : DataFrame) (c : String),
      c ∈ numericCols df ↔
        c ∈ df.cols ∧ (∃ v ∈ df.col c, v.isNum = true) ∧
          ∀ v ∈ df.col c, v.isNum = true ∨ v.isNull = true) ∧
    (∀ (df : DataFrame) (c : String), c ∈ numericCols df →
      describeCount df c = ((df.col c).filterMap Cell.toNum?).length ∧
      describeMean df c = some (((df.col c).filterMap Cell.toNum?).sum /
        (((df.col c).filterMap Cell.toNum?).length : ℚ))) ∧
    "v" ∈ numericCols
      (DataFrame.mk ["v"] [[Cell.num 1], [Cell.null], [Cell.num 3]]) ∧
    describeCount
      (DataFrame.mk ["v"] [[Cell.num 1], [Cell.null], [Cell.num 3]]) "v" = 2 ∧
    describeMean
      (DataFrame.mk ["v"] [[Cell.num 1], [Cell.null], [Cell.num 3]]) "v" =
      some 2 ∧
    numericCols
      (DataFrame.mk ["v"] [[Cell.num 1], [Cell.str "n/a"], [Cell.num 3]]) = [] := by
  have hmem : ∀ (df : DataFrame) (c : String),
      c ∈ numericCols df ↔
        c ∈ df.cols ∧ (∃ v ∈ df.col c, v.isNum = true) ∧
          ∀ v ∈ df.col c, v.isNum = true ∨ v.isNull = true := by
    intro df c
    simp only [numericCols, List.mem_filter, isNumericCol, Bool.and_eq_true,
      List.any_eq_true, List.all_eq_true, Bool.or_eq_true]
  refine ⟨hmem, ?_, by decide, by decide, ?_, by decide⟩
  · intro df c hc
    obtain ⟨-, hex, hall⟩ := (hmem df c).mp hc
    have hlen : ((df.col c).filterMap Cell.toNum?).length ≠ 0 := by
      obtain ⟨v, hv, hnum⟩ := hex
      cases v
      case num q =>
        intro hnil
        have hmemq : q ∈ (df.col c).filterMap Cell.toNum? :=
          List.mem_filterMap.mpr ⟨Cell.num q, hv, rfl⟩
        rw [List.length_eq_zero] at hnil
        rw [hnil] at hmemq
        exact absurd hmemq (List.not_mem_nil q)
      all_goals simp [Cell.isNum] at hnum
    refine ⟨countP_nonnull_of_num_or_null (df.col c) hall, ?_⟩
    rw [describeMean]
    simp [hlen]
  · rw [describeMean]
    simp [DataFrame.col, Cell.toNum?]
    norm_num

/-- Witness for the amended C4: the statistics clause applied to the
one-column frame `[1, null, 3]`. -/
theorem claim_c4_amended_witness :
    describeCount
        (DataFrame.mk ["v"] [[Cell.num 1], [Cell.null], [Cell.num 3]]) "v" =
      ((((DataFrame.mk ["v"] [[Cell.num 1], [Cell.null], [Cell.num 3]]).col
        "v")).filterMap Cell.toNum?).length ∧
    describeMean
        (DataFrame.mk ["v"] [[Cell.num 1], [Cell.null], [Cell.num 3]]) "v" =
      some (((((DataFrame.mk ["v"]
          [[Cell.num 1], [Cell.null], [Cell.num 3]]).col
            "v")).filterMap Cell.toNum?).sum /
        (((((DataFrame.mk ["v"] [[Cell.num 1], [Cell.null],
          [Cell.num 3]]).col "v")).filterMap Cell.toNum?).length : ℚ)) :=
  claim_c4_amended.2.1
    (DataFrame.mk ["v"] [[Cell.num 1], [Cell.null], [Cell.num 3]]) "v"
    (by decide)

/-- C2: the chart decision tree of `render_dataset`.  With a date column
`d` and a non-empty numeric column list, a line chart is produced whose
x-axis is `d` and whose y-axis is the selected numeric column, over
exactly the rows of the (date-coerced) frame that are non-null in both
axis columns; with a date column but no numeric column, no chart and an
informational note; with numeric columns but no date column, a binned
histogram of the selected numeric column over the frame; with neither,
no chart. -/
theorem claim_c2_chart_selection :
    (∀ (p : Cell → Option ℤ) (sel : List String → String) (df : DataFrame)
        (d : String), detect_date_column df = some d → numericCols df ≠ [] →
      (render_dataset p sel df).1 =
        ChartSpec.line d (sel (numericCols df))
          (dropna (df.mapCol d (to_datetime p))
            [d, sel (numericCols df)]) ∧
      (dropna (df.mapCol d (to_datetime p)) [d, sel (numericCols df)]).rows =
        (df.mapCol d (to_datetime p)).rows.filter (fun r =>
          rowHasValue (df.mapCol d (to_datetime p)).cols r d &&
          rowHasValue (df.mapCol d (to_datetime p)).cols r
            (sel (numericCols df))) ∧
      (∀ r, r ∈ (dropna (df.mapCol d (to_datetime p))
            [d, sel (numericCols df)]).rows ↔
          r ∈ (df.mapCol d (to_datetime p)).rows ∧
          rowHasValue (df.mapCol d (to_datetime p)).cols r d = true ∧
          rowHasValue (df.mapCol d (to_datetime p)).cols r
            (sel (numericCols df)) = true)) ∧
    (∀ (p : Cell → Option ℤ) (sel : List String → String) (df : DataFrame)
        (d : String), detect_date_column df = some d → numericCols df = [] →
      (render_dataset p sel df).1 = ChartSpec.note) ∧
    (∀ (p : Cell → Option ℤ) (sel : List String → String) (df : DataFrame),
      detect_date_column df = none → numericCols df ≠ [] →
      (render_dataset p sel df).1 =
        ChartSpec.histogram (sel (numericCols df))
          (dropna df [sel (numericCols df)])) ∧
    (∀ (p : Cell → Option ℤ) (sel : List String → String) (df : DataFrame),
      detect_date_column df = none → numericCols df = [] →
      (render_dataset p sel df).1 = ChartSpec.noChart) := by
  refine ⟨?_, ?_, ?_, ?_⟩
  · intro p sel df d hdet hnum
    refine ⟨?_, ?_, ?_⟩
    · cases h : numericCols df with
      | nil => exact absurd h hnum
      | cons a t => simp [render_dataset, hdet, h]
    · simp [dropna, Bool.and_assoc]
    · intro r
      simp [dropna, List.mem_filter, Bool.and_assoc]
  · intro p sel df d hdet hnum
    simp [render_dataset, hdet, hnum]
  · intro p sel df hdet hnum
    cases h : numericCols df with
    | nil => exact absurd h hnum
    | cons a t => simp [render_dataset, hdet, h]
  · intro p sel df hdet hnum
    simp [render_dataset, hdet, hnum]

/-- Witness for C2 at the line-chart branch: the two-row
`date`/`rate` frame with the default (first) metric selection and a
parser that accepts the one date string. -/
theorem claim_c2_chart_selection_witness :
    (render_dataset
        (fun c => match c with | Cell.str "2024-01-01" => some 19723 | _ => none)
        (fun l => l.headD "")
        (DataFrame.mk ["date", "rate"]
          [[Cell.str "2024-01-01", Cell.num 1], [Cell.null, Cell.num 2]])).1 =
      ChartSpec.line "date" "rate"
        (DataFrame.mk ["date", "rate"] [[Cell.ts 19723, Cell.num 1]]) :=
  (claim_c2_chart_selection.1
    (fun c => match c with | Cell.str "2024-01-01" => some 19723 | _ => none)
    (fun l => l.headD "")
    (DataFrame.mk ["date", "rate"]
      [[Cell.str "2024-01-01", Cell.num 1], [Cell.null, Cell.num 2]])
    "date" (by decide) (by decide)).1

/-- C10: in the histogram branch (no date column, at least one numeric
column) the rows whose selected-column cell is null are dropped before
binning, and every row with a non-null cell in that column is kept —
exactly `df.dropna(subset=[metric])`. -/
theorem claim_c10_histogram_dropna
    (p : Cell → Option ℤ) (sel : List String → String) (df : DataFrame)
    (hdet : detect_date_column df = none) (hnum : numericCols df ≠ []) :
    ∃ data, (render_dataset p sel df).1 =
        ChartSpec.histogram (sel (numericCols df)) data ∧
      data.rows = df.rows.filter (fun r =>
        rowHasValue df.cols r (sel (numericCols df))) ∧
      (∀ r, r ∈ data.rows ↔
        r ∈ df.rows ∧ rowHasValue df.cols r (sel (numericCols df)) = true) := by
  refine ⟨dropna df [sel (numericCols df)], ?_, ?_, ?_⟩
  · cases h : numericCols df with
    | nil => exact absurd h hnum
    | cons a t => simp [render_dataset, hdet, h]
  · simp [dropna]
  · intro r
    simp [dropna, List.mem_filter]

/-- Witness for C10 on a two-row one-numeric-column frame with a null. -/
theorem claim_c10_histogram_dropna_witness :
    ∃ data,
      (render_dataset (fun _ => none) (fun l => l.headD "")
          (DataFrame.mk ["v", "w"]
            [[Cell.num 1, Cell.str "a"], [Cell.null, Cell.str "b"]])).1 =
        ChartSpec.histogram "v" data ∧
      data.rows = (DataFrame.mk ["v", "w"]
          [[Cell.num 1, Cell.str "a"], [Cell.null, Cell.str "b"]]).rows.filter
          (fun r => rowHasValue ["v", "w"] r "v") ∧
      (∀ r, r ∈ data.rows ↔
        r ∈ (DataFrame.mk ["v", "w"]
          [[Cell.num 1, Cell.str "a"], [Cell.null, Cell.str "b"]]).rows ∧
        rowHasValue ["v", "w"] r "v" = true) :=
  claim_c10_histogram_dropna (fun _ => none) (fun l => l.headD "")
    (DataFrame.mk ["v", "w"]
      [[Cell.num 1, Cell.str "a"], [Cell.null, Cell.str "b"]])
    (by decide) (by decide)

theorem getD_mapCol_row (cols : List String) (r : List Cell) (d : String)
    (f : Cell → Cell) (j : ℕ) (hj : j < cols.length)
    (hr : r.length = cols.length) :
    ((cols.zip r).map
      (fun nv => if nv.1 == d then f nv.2 else nv.2)).getD j .null =
      if cols[j] == d then f (r.getD j .null) else r.getD j .null := by
  have hjr : j < r.length := by omega
  have hzip : (cols.zip r)[j]? = some (cols[j], r[j]) :=
    List.getElem?_zip_eq_some.mpr
      ⟨List.getElem?_eq_getElem hj, List.getElem?_eq_getElem hjr⟩
  rw [List.getD_eq_getElem?_getD, List.getElem?_map, hzip]
  rw [List.getD_eq_getElem?_getD, List.getElem?_eq_getElem hjr]
  rfl

theorem col_mapCol (df : DataFrame) (hwf : df.wf) (d c : String)
    (f : Cell → Cell) :
    (df.mapCol d f).col c =
      if c = d then (df.col c).map f else df.col c := by
  have hcols : (df.mapCol d f).cols = df.cols := rfl
  rw [DataFrame.col, DataFrame.col, hcols]
  cases hfind : df.cols.findIdx? (fun c' => c' == c) with
  | none => simp
  | some j =>
      obtain ⟨hj, hpj, -⟩ := List.findIdx?_eq_some_iff_getElem.mp hfind
      have hcj : df.cols[j] = c := by simpa using hpj
      simp only [DataFrame.mapCol]
      by_cases hcd : c = d
      · subst hcd
        rw [if_pos rfl, List.map_map, List.map_map]
        apply List.map_congr_left
        intro r hr
        have := getD_mapCol_row df.cols r c f j hj (hwf r hr)
        simp only [Function.comp]
        rw [this, hcj]
        simp
      · rw [if_neg hcd, List.map_map]
        apply List.map_congr_left
        intro r hr
        have := getD_mapCol_row df.cols r d f j hj (hwf r hr)
        simp only [Function.comp]
        rw [this, hcj]
        simp [hcd]

/-- C7, counterexample: rendering a frame that has a date column rewrites
that column in place (`df[date_col] = pd.to_datetime(..., errors="coerce")`,
src/app.py:94) — for a one-cell date column holding an unparseable string
the frame after `render_dataset` differs from the frame before it. -/
theorem claim_c7_counterexample :
    (render_dataset (fun _ => none) (fun l => l.headD "")
        (DataFrame.mk ["date"] [[Cell.str "x"]])).2 =
      DataFrame.mk ["date"] [[Cell.null]] ∧
    (render_dataset (fun _ => none) (fun l => l.headD "")
        (DataFrame.mk ["date"] [[Cell.str "x"]])).2 ≠
      DataFrame.mk ["date"] [[Cell.str "x"]] := by
  refine ⟨rfl, ?_⟩
  intro h
  rw [show (render_dataset (fun _ => none) (fun l => l.headD "")
      (DataFrame.mk ["date"] [[Cell.str "x"]])).2 =
      DataFrame.mk ["date"] [[Cell.null]] from rfl] at h
  simp at h

/-- C7, amended: after normalization, classification and summarization
are pure reads, and rendering leaves the frame unchanged when no date
column is detected; but when a date column `d` is detected, rendering
mutates exactly that column in place — it becomes its
`pd.to_datetime(..., errors="coerce")` image, every other column is
unchanged, and the column names are untouched. -/
theorem claim_c7_amended (p : Cell → Option ℤ) (sel : List String → String)
    (df : DataFrame) (hwf : df.wf) :
    (detect_date_column df = none → (render_dataset p sel df).2 = df) ∧
    (∀ d, detect_date_column df = some d →
      (render_dataset p sel df).2 = df.mapCol d (to_datetime p) ∧
      ((render_dataset p sel df).2).cols = df.cols ∧
      (∀ c, c ≠ d → ((render_dataset p sel df).2).col c = df.col c) ∧
      ((render_dataset p sel df).2).col d = (df.col d).map (to_datetime p)) := by
  constructor
  · intro hdet
    rw [render_dataset, hdet]
    by_cases h : (numericCols df).isEmpty <;> simp [h]
  · intro d hdet
    have hout : (render_dataset p sel df).2 = df.mapCol d (to_datetime p) := by
      rw [render_dataset, hdet]
      by_cases h : (numericCols df).isEmpty <;> simp [h]
    refine ⟨hout, by rw [hout]; rfl, ?_, ?_⟩
    · intro c hc
      rw [hout, col_mapCol df hwf d c (to_datetime p), if_neg hc]
    · rw [hout, col_mapCol df hwf d d (to_datetime p), if_pos rfl]

/-- Witness for the amended C7 on a two-column frame with a date column:
the frame comes back with the date column coerced and the other column
untouched. -/
theorem claim_c7_amended_witness :
    (detect_date_column (DataFrame.mk ["date", "rate"]
        [[Cell.str "2024-01-01", Cell.num 1]]) = none →
      (render_dataset (fun _ => some 7) (fun l => l.headD "")
        (DataFrame.mk ["date", "rate"]
          [[Cell.str "2024-01-01", Cell.num 1]])).2 =
        DataFrame.mk ["date", "rate"] [[Cell.str "2024-01-01", Cell.num 1]]) ∧
    (∀ d, detect_date_column (DataFrame.mk ["date", "rate"]
        [[Cell.str "2024-01-01", Cell.num 1]]) = some d →
      (render_dataset (fun _ => some 7) (fun l => l.headD "")
        (DataFrame.mk ["date", "rate"]
          [[Cell.str "2024-01-01", Cell.num 1]])).2 =
        (DataFrame.mk ["date", "rate"]
          [[Cell.str "2024-01-01", Cell.num 1]]).mapCol d
            (to_datetime (fun _ => some 7)) ∧
      ((render_dataset (fun _ => some 7) (fun l => l.headD "")
        (DataFrame.mk ["date", "rate"]
          [[Cell.str "2024-01-01", Cell.num 1]])).2).cols =
        ["date", "rate"] ∧
      (∀ c, c ≠ d →
        ((render_dataset (fun _ => some 7) (fun l => l.headD "")
          (DataFrame.mk ["date", "rate"]
            [[Cell.str "2024-01-01", Cell.num 1]])).2).col c =
          (DataFrame.mk ["date", "rate"]
            [[Cell.str "2024-01-01", Cell.num 1]]).col c) ∧
      ((render_dataset (fun _ => some 7) (fun l => l.headD "")
        (DataFrame.mk ["date", "rate"]
          [[Cell.str "2024-01-01", Cell.num 1]])).2).col d =
        ((DataFrame.mk ["date", "rate"]
          [[Cell.str "2024-01-01", Cell.num 1]]).col d).map
            (to_datetime (fun _ => some 7))) :=
  claim_c7_amended (fun _ => some 7) (fun l => l.headD "")
    (DataFrame.mk ["date", "rate"] [[Cell.str "2024-01-01", Cell.num 1]])
    (by decide)

/-- C6, counterexample: a payload double-encoded as a JSON string does
*not* yield the inner JSON document — the first parse succeeds and
returns the outer string value, the fallback never runs, so the body
`"[1]"` (a JSON string whose content is the document `[1]`) comes back
as the string `[1]`, not as the array. -/
theorem claim_c6_counterexample :
    json_loads "\"[1]\"" = some (Json.str "[1]") ∧
    fetch_payload json_loads "\"[1]\"" = some (Json.str "[1]") ∧
    json_loads "[1]" = some (Json.arr [Json.num 1]) ∧
    fetch_payload json_loads "\"[1]\"" ≠ some (Json.arr [Json.num 1]) := by
  refine ⟨rfl, rfl, rfl, ?_⟩
  intro h
  rw [show fetch_payload json_loads "\"[1]\"" = some (Json.str "[1]")
    from rfl] at h
  simp at h

/-- C6, amended: the `except` branch re-parses the same text with the
same parser, so the fallback can never change the outcome — the fetch
payload is exactly the single parse of the body, a double-encoded
payload yields the outer JSON string (not the inner document), and the
malformed-input error is raised exactly when that single parse fails. -/
theorem claim_c6_amended :
    (∀ (parse : String → Option Json) (text : String),
      fetch_payload parse text = parse text) ∧
    (∀ (parse : String → Option Json) (text : String),
      (fetch_payload parse text = none ↔ parse text = none)) ∧
    fetch_payload json_loads "\"[1]\"" = some (Json.str "[1]") ∧
    json_loads "[1]" = some (Json.arr [Json.num 1]) := by
  have hsame : ∀ (parse : String → Option Json) (text : String),
      fetch_payload parse text = parse text := by
    intro parse text
    rw [fetch_payload]
    cases parse text <;> rfl
  exact ⟨hsame, fun parse text => by rw [hsame], rfl, rfl⟩

theorem lookup_cacheSet (cache : Cache) (url : String) (e : CacheEntry) :
    (cacheSet cache url e).lookup url = some e := by
  rw [cacheSet]
  by_cases h : cache.any (fun kv => kv.1 == url)
  · rw [if_pos h]
    induction cache with
    | nil => simp at h
    | cons kv t ih =>
        obtain ⟨k0, v0⟩ := kv
        rw [List.map_cons]
        by_cases hk : k0 = url
        · subst hk
          rw [if_pos (by simp)]
          exact List.lookup_cons_self
        · rw [if_neg (by simpa using hk)]
          rw [List.lookup_cons]
          rw [show (url == k0) = false by simpa using Ne.symm hk]
          simp only [List.any_cons] at h
          rw [show ((k0, v0).1 == url) = false by simpa using hk] at h
          simp only [Bool.false_or] at h
          exact ih h
  · rw [if_neg h]
    have hnone : cache.lookup url = none := by
      rw [List.lookup_eq_none_iff]
      intro kv hkv
      simp only [List.any_eq_true, not_exists, not_and] at h
      have := h kv hkv
      have hne : kv.1 ≠ url := by simpa using this
      simpa [bne_iff_ne] using Ne.symm hne
    rw [List.lookup_append, hnone, Option.none_or]
    exact List.lookup_cons_self

/-- C5: per-URL memoization with a 900-second TTL.  Starting from a cache
with no entry for the URL, the first fetch issues one network call and
stores the result; a second fetch within the TTL window returns the
identical result, makes no network call and leaves the cache unchanged;
a fetch at or after expiry makes exactly one new network call and
replaces the entry. -/
theorem claim_c5_cache_ttl (net : String → ℕ → DataFrame) (cache : Cache)
    (url : String) (t1 t2 : ℕ) (hnone : cache.lookup url = none) :
    (fetch_data net cache url t1).2.2 = 1 ∧
    ((fetch_data net cache url t1).2.1).lookup url =
      some ⟨t1, net url t1, t1⟩ ∧
    (t2 < t1 + 900 →
      (fetch_data net (fetch_data net cache url t1).2.1 url t2).1 =
        (fetch_data net cache url t1).1 ∧
      (fetch_data net (fetch_data net cache url t1).2.1 url t2).2.2 = 0 ∧
      (fetch_data net (fetch_data net cache url t1).2.1 url t2).2.1 =
        (fetch_data net cache url t1).2.1) ∧
    (t1 + 900 ≤ t2 →
      (fetch_data net (fetch_data net cache url t1).2.1 url t2).2.2 = 1 ∧
      ((fetch_data net (fetch_data net cache url t1).2.1 url t2).2.1).lookup
        url = some ⟨t2, net url t2, t2⟩) := by
  have h1 : fetch_data net cache url t1 =
      ((net url t1, t1), cacheSet cache url ⟨t1, net url t1, t1⟩, 1) := by
    rw [fetch_data, hnone]
  have hl : ((fetch_data net cache url t1).2.1).lookup url =
      some ⟨t1, net url t1, t1⟩ := by
    rw [h1]
    exact lookup_cacheSet cache url ⟨t1, net url t1, t1⟩
  refine ⟨by rw [h1], hl, ?_, ?_⟩
  · intro hnear
    have h2 : fetch_data net (fetch_data net cache url t1).2.1 url t2 =
        ((net url t1, t1), (fetch_data net cache url t1).2.1, 0) := by
      rw [fetch_data, hl]
      dsimp only
      rw [if_pos hnear]
    rw [h2, h1]
    exact ⟨rfl, rfl, rfl⟩
  · intro hfar
    have h2 : fetch_data net (fetch_data net cache url t1).2.1 url t2 =
        ((net url t2, t2),
          cacheSet (fetch_data net cache url t1).2.1 url
            ⟨t2, net url t2, t2⟩, 1) := by
      rw [fetch_data, hl]
      dsimp only
      rw [if_neg (by omega : ¬ t2 < t1 + 900)]
    rw [h2]
    exact ⟨rfl, lookup_cacheSet _ url _⟩

/-- Witness for C5: a fresh cache and a constant network body, probed
within the window (at 0 and 100 seconds) and across expiry (at 0 and
1000 seconds). -/
theorem claim_c5_cache_ttl_witness :
    (fetch_data (fun _ _ => DataFrame.mk [] []) [] "u" 0).2.2 = 1 ∧
    ((fetch_data (fun _ _ => DataFrame.mk [] []) [] "u" 0).2.1).lookup "u" =
      some ⟨0, DataFrame.mk [] [], 0⟩ ∧
    (fetch_data (fun _ _ => DataFrame.mk [] [])
        (fetch_data (fun _ _ => DataFrame.mk [] []) [] "u" 0).2.1 "u" 100).1 =
      (fetch_data (fun _ _ => DataFrame.mk [] []) [] "u" 0).1 ∧
    (fetch_data (fun _ _ => DataFrame.mk [] [])
        (fetch_data (fun _ _ => DataFrame.mk [] []) [] "u" 0).2.1 "u"
        100).2.2 = 0 ∧
    (fetch_data (fun _ _ => DataFrame.mk [] [])
        (fetch_data (fun _ _ => DataFrame.mk [] []) [] "u" 0).2.1 "u"
        1000).2.2 = 1 ∧
    ((fetch_data (fun _ _ => DataFrame.mk [] [])
        (fetch_data (fun _ _ => DataFrame.mk [] []) [] "u" 0).2.1 "u"
        1000).2.1).lookup "u" = some ⟨1000, DataFrame.mk [] [], 1000⟩ := by
  have hin := claim_c5_cache_ttl (fun _ _ => DataFrame.mk [] []) [] "u" 0 100
    rfl
  have hout := claim_c5_cache_ttl (fun _ _ => DataFrame.mk [] []) [] "u" 0
    1000 rfl
  exact ⟨hin.1, hin.2.1, (hin.2.2.1 (by norm_num)).1,
    (hin.2.2.1 (by norm_num)).2.1, (hout.2.2.2 (by norm_num)).1,
    (hout.2.2.2 (by norm_num)).2⟩

/-- C8, counterexample: an error raised by `render_dataset` (which sits
outside the `try` of the analytics loop, src/app.py:184-190 — e.g. the
duplicate-widget-key error Streamlit raises when two selected datasets
share a display name) is not caught: the loop aborts with no user-visible
message naming the dataset, and the sibling dataset `B` is never
processed. -/
theorem claim_c8_counterexample :
    analyticsLoop (fun _ => Except.ok (DataFrame.mk [] []))
      (fun n _ => if n == "A" then Except.error "DuplicateWidgetID"
        else Except.ok ())
      [("A", "u1"), ("B", "u2")] = Except.error ("A", []) ∧
    (summaryLoop (fun _ => Except.ok (DataFrame.mk [] []))
      [("A", "u1"), ("B", "u2")]).2 = [] :=
  ⟨rfl, rfl⟩

/-- C8, amended: fetch failures are isolated per dataset — the summary
pass reports exactly the datasets whose fetch failed, by name and in
order, and still produces a row for every other dataset; the analytics
pass skips fetch failures silently and, when every render succeeds,
processes exactly the fetch-succeeding datasets; but an error raised
while rendering a dataset is not caught: the loop stops at the first
such dataset and the datasets after it are never processed. -/
theorem claim_c8_amended :
    (∀ (fetch : String → Except String DataFrame)
        (sel : List (String × String)),
      (summaryLoop fetch sel).2 = sel.filterMap (fun nu =>
        match fetch nu.2 with
        | .error _ => some nu.1
        | .ok _ => none) ∧
      (summaryLoop fetch sel).1 = sel.filterMap (fun nu =>
        match fetch nu.2 with
        | .ok df => some ⟨nu.1, nu.2, df.rows.length, df.cols.length⟩
        | .error _ => none)) ∧
    (∀ (fetch : String → Except String DataFrame)
        (render : String → DataFrame → Except String Unit)
        (sel : List (String × String)),
      (∀ n u df, (n, u) ∈ sel → fetch u = .ok df → render n df = .ok ()) →
      analyticsLoop fetch render sel = .ok (sel.filterMap (fun nu =>
        match fetch nu.2 with | .ok _ => some nu.1 | .error _ => none))) ∧
    (∀ (fetch : String → Except String DataFrame)
        (render : String → DataFrame → Except String Unit)
        (pre : List (String × String)) (n u : String)
        (post : List (String × String)) (df : DataFrame) (e : String),
      fetch u = .ok df → render n df = .error e →
      (∀ n' u' df', (n', u') ∈ pre → fetch u' = .ok df' →
        render n' df' = .ok ()) →
      analyticsLoop fetch render (pre ++ (n, u) :: post) =
        .error (n, pre.filterMap (fun nu =>
          match fetch nu.2 with | .ok _ => some nu.1 | .error _ => none))) := by
  refine ⟨?_, ?_, ?_⟩
  · intro fetch sel
    induction sel with
    | nil => exact ⟨rfl, rfl⟩
    | cons nu rest ih =>
        obtain ⟨n, u⟩ := nu
        rw [summaryLoop]
        cases hfe : fetch u <;>
          simp [List.filterMap_cons, hfe, ih.1, ih.2]
  · intro fetch render sel hok
    induction sel with
    | nil => rfl
    | cons nu rest ih =>
        obtain ⟨n, u⟩ := nu
        have hrest : ∀ n' u' df', (n', u') ∈ rest → fetch u' = .ok df' →
            render n' df' = .ok () := by
          intro n' u' df' hm hf
          exact hok n' u' df' (List.mem_cons_of_mem _ hm) hf
        rw [analyticsLoop]
        cases hfe : fetch u with
        | error e => simp [List.filterMap_cons, hfe, ih hrest]
        | ok df =>
            dsimp only
            rw [hok n u df (List.mem_cons_self _ _) hfe]
            dsimp only
            rw [ih hrest]
            simp [List.filterMap_cons, hfe]
  · intro fetch render pre n u post df e hfe hre hok
    induction pre with
    | nil =>
        rw [List.nil_append, analyticsLoop, hfe]
        dsimp only
        rw [hre]
        rfl
    | cons p t ih =>
        obtain ⟨n0, u0⟩ := p
        have ht : ∀ n' u' df', (n', u') ∈ t → fetch u' = .ok df' →
            render n' df' = .ok () := by
          intro n' u' df' hm hf
          exact hok n' u' df' (List.mem_cons_of_mem _ hm) hf
        rw [List.cons_append, analyticsLoop]
        cases hf0 : fetch u0 with
        | error e0 => simp [List.filterMap_cons, hf0, ih ht]
        | ok df0 =>
            dsimp only
            rw [hok n0 u0 df0 (List.mem_cons_self _ _) hf0]
            dsimp only
            rw [ih ht]
            simp [List.filterMap_cons, hf0]

/-- Witness for the amended C8: the all-renders-succeed clause on a run
with one failing fetch, and the render-failure clause on a two-dataset
run whose second render fails. -/
theorem claim_c8_amended_witness :
    analyticsLoop
      (fun u => if u == "bad" then Except.error "net"
        else Except.ok (DataFrame.mk [] []))
      (fun _ _ => Except.ok ()) [("A", "u1"), ("B", "bad")] =
      Except.ok ["A"] ∧
    analyticsLoop (fun _ => Except.ok (DataFrame.mk [] []))
      (fun n _ => if n == "B" then Except.error "DuplicateWidgetID"
        else Except.ok ())
      [("A", "u1"), ("B", "u2"), ("C", "u3")] =
      Except.error ("B", ["A"]) := by
  constructor
  · exact claim_c8_amended.2.1
      (fun u => if u == "bad" then Except.error "net"
        else Except.ok (DataFrame.mk [] []))
      (fun _ _ => Except.ok ()) [("A", "u1"), ("B", "bad")]
      (fun _ _ _ _ _ => rfl)
  · exact claim_c8_amended.2.2
      (fun _ => Except.ok (DataFrame.mk [] []))
      (fun n _ => if n == "B" then Except.error "DuplicateWidgetID"
        else Except.ok ())
      [("A", "u1")] "B" "u2" [("C", "u3")] (DataFrame.mk [] [])
      "DuplicateWidgetID" rfl rfl
      (by intro n' u' df' hm hf
          simp at hm
          obtain ⟨rfl, rfl⟩ := hm
          rfl)

end NBU
